import Mathlib

/-!
Shallow embedding of the local-tts-mcp TTS server (TypeScript sources:
`src/engines/macos-engine.ts`, `src/engines/kokoro-engine.ts`,
`src/tools/synthesize-text.ts`, `src/tools/audio-player.ts`,
`src/types/index.ts`).  Pure logic is translated directly; external
effects (subprocess outcomes, clocks, the platform probe, partially
written files) are supplied by explicit environment records, and the
filesystem is a list of existing paths threaded through each operation.
-/

/-- Error codes from `src/types/index.ts` (`ErrorCodes`). -/
inductive ErrorCode where
  | engineNotAvailable
  | engineNotInitialized
  | engineInitializationFailed
  | voiceNotFound
  | textTooLong
  | synthesisFailed
  | fileOperationFailed
  | fileNotFound
  | invalidParameters
  | timeout
  | memoryLimitExceeded
  | playbackFailed
deriving DecidableEq

/-- Tagged error from `src/types/index.ts` (`TTSError`): message, code and
optional originating engine.  The `originalError` cause chain is not
modelled. -/
structure TTSError where
  message : String
  code : ErrorCode
  engine : Option String
deriving DecidableEq

/-- A thrown JavaScript value: either a `TTSError` or a plain `Error`
(identified by its message).  The engines' catch blocks branch on
`error instanceof TTSError`. -/
inductive JSError where
  | tts (e : TTSError)
  | plain (message : String)
deriving DecidableEq

/-- Voice record from `src/types/index.ts`. -/
structure Voice where
  id : String
  name : String
  language : String
  gender : String
  description : String
  engine : String
  quality : String
deriving DecidableEq

/-- Synthesis request from `src/types/index.ts`.  The speed multiplier is a
rational standing for the JS number. -/
structure SynthesisRequest where
  text : String
  voice : Option String
  engineChoice : Option String
  outputFormat : Option String
  speed : Option ℚ
  quality : Option String
deriving DecidableEq

/-- Metadata block of an `AudioResult`. -/
structure AudioMetadata where
  voice : String
  engine : String
  textLength : Nat
  synthesisTime : Nat
deriving DecidableEq

/-- Result of a successful synthesis, from `src/types/index.ts`. -/
structure AudioResult where
  filePath : String
  format : String
  duration : Option Nat
  size : Nat
  metadata : AudioMetadata
deriving DecidableEq

/-- JavaScript `String.prototype.trim`: strip leading and trailing
whitespace. -/
def jsTrim (s : String) : String :=
  ⟨((s.data.dropWhile Char.isWhitespace).reverse.dropWhile Char.isWhitespace).reverse⟩

/-- JavaScript `String.prototype.toLowerCase` (ASCII range), mapped over
the characters. -/
def jsToLower (s : String) : String :=
  ⟨s.data.map Char.toLower⟩

/-- Decides whether `pre` is an initial segment of `l` (helper for the model
of JavaScript `String.prototype.includes`). -/
def charsLeadSeg : List Char → List Char → Bool
  | [], _ => true
  | _ :: _, [] => false
  | a :: as, b :: bs => a == b && charsLeadSeg as bs

/-- Decides whether `needle` occurs contiguously inside the second list. -/
def charsContains (needle : List Char) : List Char → Bool
  | [] => needle.isEmpty
  | c :: tl => charsLeadSeg needle (c :: tl) || charsContains needle tl

/-- JavaScript `String.prototype.includes`. -/
def jsIncludes (s sub : String) : Bool :=
  charsContains sub.data s.data

/-- JavaScript `Math.round` on a rational: floor of `q + 1/2` (ties go up). -/
def jsRound (q : ℚ) : Int :=
  ⌊q + 1 / 2⌋

/-- Speed-to-rate mapping of `MacOSEngine.calculateRate`
(`src/engines/macos-engine.ts`): a missing or zero speed (JS falsy check
`!speed`) yields 200, otherwise `Math.max(80, Math.min(400, Math.round(speed * 200)))`. -/
def calculateRate (speed : Option ℚ) : Int :=
  match speed with
  | none => 200
  | some s => if s = 0 then 200 else max 80 (min 400 (jsRound (s * 200)))

/-- Modelled from the spec: the rate formula `clamp(speed*200, 80, 400)`
with rounding, stated in the spec's own words for comparison against
`calculateRate`. -/
def rateSpec (s : ℚ) : Int :=
  max 80 (min 400 (jsRound (s * 200)))

theorem calculateRate_eq_spec (s : ℚ) (h : 1 / 10 ≤ s) :
    calculateRate (some s) = rateSpec s := by
  have hs : s ≠ 0 := ne_of_gt (lt_of_lt_of_le (by norm_num) h)
  simp [calculateRate, rateSpec, hs]

theorem jsRound_mono {q r : ℚ} (h : q ≤ r) : jsRound q ≤ jsRound r := by
  exact Int.floor_le_floor (by linarith)

theorem calculateRate_mono {s t : ℚ} (hs : 1 / 10 ≤ s) (hst : s ≤ t) :
    calculateRate (some s) ≤ calculateRate (some t) := by
  have hs0 : s ≠ 0 := ne_of_gt (lt_of_lt_of_le (by norm_num) hs)
  have ht0 : t ≠ 0 := ne_of_gt (lt_of_lt_of_le (by norm_num) (hs.trans hst))
  have hr : jsRound (s * 200) ≤ jsRound (t * 200) :=
    jsRound_mono (by nlinarith)
  simp only [calculateRate, hs0, ht0, if_false]
  exact max_le_max le_rfl (min_le_min le_rfl hr)

theorem calculateRate_bounds (o : Option ℚ) :
    80 ≤ calculateRate o ∧ calculateRate o ≤ 400 := by
  match o with
  | none => exact ⟨by norm_num [calculateRate], by norm_num [calculateRate]⟩
  | some s =>
    by_cases h : s = 0
    · simp [calculateRate, h]
    · constructor
      · simp only [calculateRate, h, if_false]
        exact le_max_left _ _
      · simp only [calculateRate, h, if_false]
        exact max_le (by norm_num) (min_le_left _ _)

/-- Filesystem model: the list of existing paths (duplicate-free by
construction of `fsWrite`). -/
abbrev FSState := List String

/-- Creating or overwriting a file at `p`. -/
def fsWrite (fs : FSState) (p : String) : FSState :=
  if p ∈ fs then fs else p :: fs

/-- The effect of `fs.unlink(p)` with errors ignored: afterwards no file
exists at `p`. -/
def fsUnlink (fs : FSState) (p : String) : FSState :=
  fs.filter (fun q => q != p)

/-- Node `path.join` restricted to the directory-plus-filename uses in the
engines. -/
def pathJoin (dir file : String) : String :=
  dir ++ "/" ++ file

/-- JavaScript `text.slice(0, 30)`. -/
def jsSlice30 (s : String) : String :=
  ⟨s.data.take 30⟩

/-- The regex replacement `replace(/[^a-zA-Z0-9\s]/g, '')`: keep only
ASCII alphanumerics and whitespace. -/
def keepAlnumWs (s : String) : String :=
  ⟨s.data.filter (fun c => c.isAlphanum || c.isWhitespace)⟩

/-- The regex replacement `replace(/\s+/g, '_')`: each maximal whitespace
run becomes a single underscore.  The boolean records whether the previous
character was whitespace. -/
def wsCollapseAux : Bool → List Char → List Char
  | _, [] => []
  | prevWs, c :: cs =>
    if c.isWhitespace then
      if prevWs then wsCollapseAux true cs
      else '_' :: wsCollapseAux true cs
    else c :: wsCollapseAux false cs

/-- The filename text preview used by both engines:
`text.slice(0, 30).replace(/[^a-zA-Z0-9\s]/g, '').replace(/\s+/g, '_').toLowerCase()`. -/
def sanitizePreview (text : String) : String :=
  jsToLower ⟨wsCollapseAux false (keepAlnumWs (jsSlice30 text)).data⟩

/-- Outcome of an awaited subprocess, supplied by the environment: the
process closed with an exit code, the spawn itself failed, or the watchdog
timer fired first. -/
inductive ProcOutcome where
  | closed (code : Int)
  | spawnFailed (msg : String)
  | timedOut
deriving DecidableEq

/-- State of a `MacOSEngine` instance. -/
structure MacState where
  outputDir : String
  tempDir : String
  voices : List Voice
  initialized : Bool
deriving DecidableEq

/-- Environment for `MacOSEngine.initialize`: the platform probe, the
`which say` probe, and the parsed output of `say -v "?"` (`none` when that
command fails). -/
structure MacInitEnv where
  platformDarwin : Bool
  sayCommandOk : Bool
  voiceListing : Option (List Voice)
deriving DecidableEq

/-- Environment for one `MacOSEngine.synthesize` call: timestamp string,
`mkdir` outcome, the `say` subprocess outcome with its stderr, whether the
subprocess left (possibly partial) bytes at the output path, the size
reported by `fs.stat`, and the measured synthesis time. -/
structure MacSynthEnv where
  timestamp : String
  mkdirOk : Bool
  sayRun : ProcOutcome
  sayStderr : String
  fileWritten : Bool
  statSize : Nat
  synthMs : Nat
deriving DecidableEq

/-- `MacOSEngine.initialize`: returns immediately when already
initialized; throws `ENGINE_NOT_AVAILABLE` off macOS; otherwise probes
`which say` and loads the voice catalog, and the catch block rewraps any
failure of either step as `macOS Say command not available`. -/
def macosInit (st : MacState) (env : MacInitEnv) : Except JSError MacState :=
  if st.initialized then .ok st
  else if env.platformDarwin = false then
    .error (.tts ⟨"macOS Say engine is only available on macOS",
      .engineNotAvailable, some "macos"⟩)
  else if env.sayCommandOk then
    match env.voiceListing with
    | some vs => .ok { st with voices := vs, initialized := true }
    | none => .error (.tts ⟨"macOS Say command not available",
        .engineNotAvailable, some "macos"⟩)
  else
    .error (.tts ⟨"macOS Say command not available",
      .engineNotAvailable, some "macos"⟩)

/-- The match predicate of `MacOSEngine.resolveVoice`: case-insensitive
equality on voice name or voice id. -/
def macosVoiceMatch (r : String) (v : Voice) : Bool :=
  jsToLower v.name == jsToLower r || jsToLower v.id == jsToLower r

/-- `MacOSEngine.resolveVoice`: a falsy request (absent or empty) takes the
voice named `Alex` or else the first voice (`undefined`, i.e. `none`, when
the list is empty); an explicit request is matched case-insensitively
against voice name and id, and throws `VOICE_NOT_FOUND` without a match. -/
def macosResolveVoice (voices : List Voice) (requestedVoice : Option String) :
    Except TTSError (Option Voice) :=
  match requestedVoice with
  | none =>
    .ok (match voices.find? (fun v => v.name == "Alex") with
      | some v => some v
      | none => voices.head?)
  | some r =>
    if r = "" then
      .ok (match voices.find? (fun v => v.name == "Alex") with
        | some v => some v
        | none => voices.head?)
    else
      match voices.find? (macosVoiceMatch r) with
      | some v => .ok (some v)
      | none => .error ⟨"Voice \"" ++ r ++ "\" not found",
          .voiceNotFound, some "macos"⟩

/-- `MacOSEngine.executeSay`: resolves on exit code 0, rejects with a plain
`Error` on a non-zero code or spawn failure, and rejects with a
`TIMEOUT`-tagged `TTSError` when the 5-minute watchdog fires. -/
def executeSay (run : ProcOutcome) (stderr : String) : Except JSError Unit :=
  match run with
  | .closed c =>
    if c = 0 then .ok ()
    else .error (.plain ("say command failed with code " ++ toString c ++ ": " ++ stderr))
  | .spawnFailed m => .error (.plain m)
  | .timedOut => .error (.tts ⟨"Synthesis timeout", .timeout, some "macos"⟩)

/-- Catch block of `MacOSEngine.synthesize`: unlink the output path
(ignoring unlink errors), rethrow a `TTSError` as-is and wrap anything else
as `SYNTHESIS_FAILED`. -/
def macosCatch (outputPath : String) (e : JSError) (fs : FSState) :
    Except JSError AudioResult × FSState :=
  let fs' := fsUnlink fs outputPath
  match e with
  | .tts t => (.error (.tts t), fs')
  | .plain _ => (.error (.tts ⟨"Synthesis failed", .synthesisFailed, some "macos"⟩), fs')

/-- The output path `MacOSEngine.synthesize` computes for a resolved
voice. -/
def macosOutputPath (st : MacState) (env : MacSynthEnv) (req : SynthesisRequest)
    (voice : Voice) : String :=
  pathJoin st.outputDir
    ("macos_" ++ voice.name ++ "_" ++ env.timestamp ++ "_" ++ sanitizePreview req.text ++ ".aiff")

/-- `MacOSEngine.synthesize`: lazy initialization, empty-text and
50,000-character validation, voice resolution, then the try block — ensure
the output directory, run `say`, and `fs.stat` the output file — with the
catch block deleting the output file before propagating.  Returns the
result together with the final filesystem. -/
def macosSynthesize (st0 : MacState) (ienv : MacInitEnv) (env : MacSynthEnv)
    (req : SynthesisRequest) (fs0 : FSState) :
    Except JSError AudioResult × FSState :=
  match macosInit st0 ienv with
  | .error e => (.error e, fs0)
  | .ok st =>
    if jsTrim req.text = "" then
      (.error (.tts ⟨"Text cannot be empty", .invalidParameters, some "macos"⟩), fs0)
    else if 50000 < req.text.length then
      (.error (.tts ⟨"Text too long for macOS Say (max 50,000 characters)",
        .textTooLong, some "macos"⟩), fs0)
    else
      match macosResolveVoice st.voices req.voice with
      | .error e => (.error (.tts e), fs0)
      | .ok none => (.error (.plain "TypeError: Cannot read properties of undefined"), fs0)
      | .ok (some voice) =>
        let outputPath := macosOutputPath st env req voice
        if env.mkdirOk = false then
          macosCatch outputPath
            (.tts ⟨"Failed to create directory: " ++ st.outputDir,
              .fileOperationFailed, some "macos"⟩) fs0
        else
          let _rate := calculateRate req.speed
          let fs1 := if env.fileWritten then fsWrite fs0 outputPath else fs0
          match executeSay env.sayRun env.sayStderr with
          | .error e => macosCatch outputPath e fs1
          | .ok _ =>
            if outputPath ∈ fs1 then
              (.ok ⟨outputPath, "aiff", none, env.statSize,
                ⟨voice.name, "macos", req.text.length, env.synthMs⟩⟩, fs1)
            else
              macosCatch outputPath
                (.plain ("ENOENT: no such file or directory, stat " ++ outputPath)) fs1

/-- State of a `KokoroEngine` instance. -/
structure KokoroState where
  outputDir : String
  tempDir : String
  voices : List Voice
  initialized : Bool
  pythonExecutable : Option String
deriving DecidableEq

/-- Environment for `KokoroEngine.initialize`: the executable found by
`findPythonExecutable` (`none` when every probe fails) and the outcome of
`verifyKokoroInstallation`. -/
structure KokoroInitEnv where
  pythonFound : Option String
  verifyOk : Bool
deriving DecidableEq

/-- Environment for one `KokoroEngine.synthesize` call: timestamp string,
the `Date.now()` value used in the temp-script name, `mkdir` outcome, the
Python subprocess outcome with its captured stdout/stderr, whether the
subprocess left (possibly partial) bytes at the output path, the size
reported by `fs.stat`, and the measured synthesis time. -/
structure KokoroSynthEnv where
  timestamp : String
  nowMs : Nat
  mkdirOk : Bool
  run : ProcOutcome
  runStdout : String
  runStderr : String
  fileWritten : Bool
  statSize : Nat
  synthMs : Nat
deriving DecidableEq

/-- The fixed built-in voice catalog of `KokoroEngine.loadVoices`. -/
def kokoroVoiceCatalog : List Voice := [
  ⟨"kokoro-af", "AF (American Female)", "en-us", "female", "Young American female voice", "kokoro", "high"⟩,
  ⟨"kokoro-af_bella", "AF_BELLA", "en-us", "female", "Bella - warm American female", "kokoro", "high"⟩,
  ⟨"kokoro-af_sarah", "AF_SARAH", "en-us", "female", "Sarah - clear American female", "kokoro", "high"⟩,
  ⟨"kokoro-am_adam", "AM_ADAM", "en-us", "male", "Adam - deep American male", "kokoro", "high"⟩,
  ⟨"kokoro-am_michael", "AM_MICHAEL", "en-us", "male", "Michael - natural American male", "kokoro", "high"⟩,
  ⟨"kokoro-bf_emma", "BF_EMMA", "en-gb", "female", "Emma - British female", "kokoro", "high"⟩,
  ⟨"kokoro-bm_george", "BM_GEORGE", "en-gb", "male", "George - British male", "kokoro", "high"⟩,
  ⟨"kokoro-es_am_antonio", "ES_AM_ANTONIO", "es-es", "male", "Antonio - Spanish male", "kokoro", "high"⟩,
  ⟨"kokoro-es_af_maria", "ES_AF_MARIA", "es-es", "female", "Maria - Spanish female", "kokoro", "high"⟩,
  ⟨"kokoro-fr_am_pierre", "FR_AM_PIERRE", "fr-fr", "male", "Pierre - French male", "kokoro", "high"⟩,
  ⟨"kokoro-fr_af_sophie", "FR_AF_SOPHIE", "fr-fr", "female", "Sophie - French female", "kokoro", "high"⟩,
  ⟨"kokoro-ja_af_yuki", "JA_AF_YUKI", "ja-jp", "female", "Yuki - Japanese female", "kokoro", "high"⟩,
  ⟨"kokoro-ja_am_hiroshi", "JA_AM_HIROSHI", "ja-jp", "male", "Hiroshi - Japanese male", "kokoro", "high"⟩,
  ⟨"kokoro-de_af_anna", "DE_AF_ANNA", "de-de", "female", "Anna - German female", "kokoro", "high"⟩,
  ⟨"kokoro-de_am_hans", "DE_AM_HANS", "de-de", "male", "Hans - German male", "kokoro", "high"⟩,
  ⟨"kokoro-it_af_giulia", "IT_AF_GIULIA", "it-it", "female", "Giulia - Italian female", "kokoro", "high"⟩,
  ⟨"kokoro-it_am_marco", "IT_AM_MARCO", "it-it", "male", "Marco - Italian male", "kokoro", "high"⟩,
  ⟨"kokoro-pt_af_maria", "PT_AF_MARIA", "pt-br", "female", "Maria - Portuguese female", "kokoro", "high"⟩,
  ⟨"kokoro-pt_am_joao", "PT_AM_JOAO", "pt-br", "male", "João - Portuguese male", "kokoro", "high"⟩,
  ⟨"kokoro-zh_af_mei", "ZH_AF_MEI", "zh-cn", "female", "Mei - Chinese female", "kokoro", "high"⟩,
  ⟨"kokoro-zh_am_wei", "ZH_AM_WEI", "zh-cn", "male", "Wei - Chinese male", "kokoro", "high"⟩]

/-- Try block of `KokoroEngine.initialize` (`detectPythonEnvironment` then
the built-in `loadVoices`): returns the mutated state and the error it
would throw, if any.  Note `this.pythonExecutable` is assigned before
`verifyKokoroInstallation` runs, so the assignment survives a verify
failure. -/
def kokoroInitTry (st : KokoroState) (env : KokoroInitEnv) :
    KokoroState × Option JSError :=
  match env.pythonFound with
  | none => (st, some (.tts ⟨"Failed to detect Python environment",
      .engineNotAvailable, some "kokoro"⟩))
  | some py =>
    let st1 := { st with pythonExecutable := some py }
    if env.verifyOk then
      ({ st1 with voices := kokoroVoiceCatalog, initialized := true }, none)
    else
      (st1, some (.tts ⟨"Failed to detect Python environment",
        .engineNotAvailable, some "kokoro"⟩))

/-- `KokoroEngine.initialize`: returns immediately when already
initialized, and otherwise runs the try block with a catch that swallows
the error (the engine is left unavailable, nothing is thrown — the second
component is always `none`). -/
def kokoroInit (st : KokoroState) (env : KokoroInitEnv) :
    KokoroState × Option JSError :=
  if st.initialized then (st, none)
  else ((kokoroInitTry st env).1, none)

/-- The match predicate of `KokoroEngine.resolveVoice`: the macOS exact
name/id match, or the requested string occurring case-insensitively as a
substring of the voice name. -/
def kokoroVoiceMatch (r : String) (v : Voice) : Bool :=
  jsToLower v.name == jsToLower r || jsToLower v.id == jsToLower r ||
    jsIncludes (jsToLower v.name) (jsToLower r)

/-- `KokoroEngine.resolveVoice`: a falsy request takes the voice with id
`kokoro-af_sarah` or else the first voice; an explicit request matches
case-insensitively on voice name, voice id, or when the voice name
contains the request as a substring, and throws `VOICE_NOT_FOUND` without
a match. -/
def kokoroResolveVoice (voices : List Voice) (requestedVoice : Option String) :
    Except TTSError (Option Voice) :=
  match requestedVoice with
  | none =>
    .ok (match voices.find? (fun v => v.id == "kokoro-af_sarah") with
      | some v => some v
      | none => voices.head?)
  | some r =>
    if r = "" then
      .ok (match voices.find? (fun v => v.id == "kokoro-af_sarah") with
        | some v => some v
        | none => voices.head?)
    else
      match voices.find? (kokoroVoiceMatch r) with
      | some v => .ok (some v)
      | none => .error ⟨"Voice \"" ++ r ++ "\" not found in Kokoro engine",
          .voiceNotFound, some "kokoro"⟩

/-- Failure message `KokoroEngine.executeKokoro` builds when the subprocess
exits without qualifying as a success. -/
def kokoroExitFailMsg (code : Int) (stdout stderr : String) : String :=
  "Kokoro synthesis failed (exit code " ++ toString code ++ "):\nSTDOUT: " ++
    stdout ++ "\nSTDERR: " ++ stderr

/-- `KokoroEngine.executeKokoro`: throws `ENGINE_NOT_AVAILABLE` when no
Python executable was detected; otherwise resolves only when the process
closed with exit code 0 and its stdout contains `SUCCESS`, rejects with
`SYNTHESIS_FAILED` on any other close, `ENGINE_NOT_AVAILABLE` on a spawn
error, and `TIMEOUT` when the 30-second watchdog fires. -/
def executeKokoro (pythonExecutable : Option String) (run : ProcOutcome)
    (stdout stderr : String) : Except JSError Unit :=
  match pythonExecutable with
  | none => .error (.tts ⟨"Python executable not detected - initialization may have failed",
      .engineNotAvailable, some "kokoro"⟩)
  | some _ =>
    match run with
    | .closed c =>
      if c = 0 ∧ jsIncludes stdout "SUCCESS" = true then .ok ()
      else .error (.tts ⟨kokoroExitFailMsg c stdout stderr, .synthesisFailed, some "kokoro"⟩)
    | .spawnFailed m =>
      .error (.tts ⟨"Failed to spawn Python process: " ++ m,
        .engineNotAvailable, some "kokoro"⟩)
    | .timedOut =>
      .error (.tts ⟨"Kokoro synthesis timeout (30 seconds)", .timeout, some "kokoro"⟩)

/-- Catch block of `KokoroEngine.synthesize`: unlink the output path
(ignoring unlink errors) — the temp script is not touched here — rethrow a
`TTSError` as-is and wrap anything else as `SYNTHESIS_FAILED`. -/
def kokoroCatch (outputPath : String) (e : JSError) (fs : FSState) :
    Except JSError AudioResult × FSState :=
  let fs' := fsUnlink fs outputPath
  match e with
  | .tts t => (.error (.tts t), fs')
  | .plain _ => (.error (.tts ⟨"Kokoro synthesis failed", .synthesisFailed, some "kokoro"⟩), fs')

/-- The output path `KokoroEngine.synthesize` computes for a resolved
voice. -/
def kokoroOutputPath (st : KokoroState) (env : KokoroSynthEnv)
    (req : SynthesisRequest) (voice : Voice) : String :=
  pathJoin st.outputDir
    ("kokoro_" ++ voice.name ++ "_" ++ env.timestamp ++ "_" ++ sanitizePreview req.text ++ ".wav")

/-- The temp-script path `KokoroEngine.synthesize` writes the generated
Python script to. -/
def kokoroScriptPath (st : KokoroState) (env : KokoroSynthEnv) : String :=
  pathJoin st.tempDir ("kokoro_" ++ toString env.nowMs ++ ".py")

/-- `KokoroEngine.synthesize`: lazy initialization (which never throws),
empty-text and 50,000-character validation, voice resolution, then the try
block — ensure the output directory, write the generated script to the
temp path, run it via `executeKokoro`, unlink the script, and `fs.stat`
the output file — with the catch block deleting only the output file
before propagating. -/
def kokoroSynthesize (st0 : KokoroState) (ienv : KokoroInitEnv) (env : KokoroSynthEnv)
    (req : SynthesisRequest) (fs0 : FSState) :
    Except JSError AudioResult × FSState :=
  let st := (kokoroInit st0 ienv).1
  if jsTrim req.text = "" then
    (.error (.tts ⟨"Text cannot be empty", .invalidParameters, some "kokoro"⟩), fs0)
  else if 50000 < req.text.length then
    (.error (.tts ⟨"Text too long for Kokoro TTS (max 50,000 characters)",
      .textTooLong, some "kokoro"⟩), fs0)
  else
    match kokoroResolveVoice st.voices req.voice with
    | .error e => (.error (.tts e), fs0)
    | .ok none => (.error (.plain "TypeError: Cannot read properties of undefined"), fs0)
    | .ok (some voice) =>
      let outputPath := kokoroOutputPath st env req voice
      if env.mkdirOk = false then
        kokoroCatch outputPath
          (.tts ⟨"Failed to create directory: " ++ st.outputDir,
            .fileOperationFailed, some "kokoro"⟩) fs0
      else
        let scriptPath := kokoroScriptPath st env
        let fs1 := fsWrite fs0 scriptPath
        let fs2 := if st.pythonExecutable.isSome && env.fileWritten
          then fsWrite fs1 outputPath else fs1
        match executeKokoro st.pythonExecutable env.run env.runStdout env.runStderr with
        | .error e => kokoroCatch outputPath e fs2
        | .ok _ =>
          let fs3 := fsUnlink fs2 scriptPath
          if outputPath ∈ fs3 then
            (.ok ⟨outputPath, "wav", none, env.statSize,
              ⟨voice.name, "kokoro", req.text.length, env.synthMs⟩⟩, fs3)
          else
            kokoroCatch outputPath
              (.plain ("ENOENT: no such file or directory, stat " ++ outputPath)) fs3

/-- `Map.get` on the engine registry, modelled as lookup in an association
list with unique keys. -/
def mapGet {α : Type} (m : List (String × α)) (k : String) : Option α :=
  (m.find? (fun p => p.1 == k)).map (fun p => p.2)

/-- The engine preference validated by `synthesizeTextSchema`. -/
inductive EnginePref where
  | macos
  | kokoro
  | auto
deriving DecidableEq

/-- `selectEngine` from `src/tools/synthesize-text.ts`: explicit names are
exact registry lookups; `auto` prefers the `kokoro` entry and falls back
to `macos`. -/
def selectEngine {α : Type} (preference : EnginePref) (engines : List (String × α)) :
    Option α :=
  match preference with
  | .macos => mapGet engines "macos"
  | .kokoro => mapGet engines "kokoro"
  | .auto =>
    match mapGet engines "kokoro" with
    | some e => some e
    | none => mapGet engines "macos"

/-- The engine-selection step of `synthesizeTextHandler`: a `null` result
from `selectEngine` becomes a thrown `ENGINE_NOT_AVAILABLE` error. -/
def handlerSelectEngine {α : Type} (preference : EnginePref)
    (engines : List (String × α)) : Except TTSError α :=
  match selectEngine preference engines with
  | some e => .ok e
  | none => .error ⟨"No available TTS engines", .engineNotAvailable, none⟩

/-- State of the `AudioPlayer` singleton (`src/tools/audio-player.ts`).
The tracked subprocess is identified by a token. -/
structure PlayerState where
  currentProcess : Option Nat
  isPaused : Bool
  currentFile : Option String
  mostRecentFile : Option String
deriving DecidableEq

/-- The freshly constructed `AudioPlayer`. -/
def initialPlayer : PlayerState :=
  ⟨none, false, none, none⟩

/-- `AudioPlayer.setMostRecentFile`. -/
def playerSetMostRecent (p : String) (s : PlayerState) : PlayerState :=
  { s with mostRecentFile := some p }

/-- `AudioPlayer.stop`: terminate and clear the tracked subprocess if any;
returns the `{message, status}` payload with the next state. -/
def playerStop (s : PlayerState) : (String × String) × PlayerState :=
  match s.currentProcess with
  | some _ =>
    (("Audio playback stopped", "stopped"),
      { s with currentProcess := none, currentFile := none, isPaused := false })
  | none => (("No active playback to stop", "stopped"), s)

/-- `AudioPlayer.pause`: a no-op reporting status `stopped` when there is
no tracked subprocess or it is already paused; otherwise SIGSTOP and set
the paused flag. -/
def playerPause (s : PlayerState) : (String × String) × PlayerState :=
  if s.currentProcess = none ∨ s.isPaused = true then
    (("No active playback to pause", "stopped"), s)
  else
    (("Audio playback paused", "paused"), { s with isPaused := true })

/-- `AudioPlayer.resume`: a no-op when there is no tracked subprocess or it
is not paused, reporting `playing` or `stopped` according to whether a
subprocess is tracked; otherwise SIGCONT and clear the paused flag. -/
def playerResume (s : PlayerState) : (String × String) × PlayerState :=
  if s.currentProcess = none ∨ s.isPaused = false then
    (("No paused playback to resume",
      if s.currentProcess.isSome then "playing" else "stopped"), s)
  else
    (("Audio playback resumed", "playing"), { s with isPaused := false })

/-- JavaScript `audioPath || this.mostRecentFile`: an absent or empty
`audioPath` is falsy and falls through to the most recent file. -/
def jsOrFile (audioPath fallback : Option String) : Option String :=
  match audioPath with
  | some p => if p = "" then fallback else some p
  | none => fallback

/-- `AudioPlayer.play`: resolve the file (throwing `FILE_NOT_FOUND` when
the resolved path is falsy), stop any current playback, then spawn
`afplay` (token `pid`) and record the file as current. -/
def playerPlay (audioPath : Option String) (pid : Nat) (s : PlayerState) :
    Except TTSError ((String × String × String) × PlayerState) :=
  match jsOrFile audioPath s.mostRecentFile with
  | none => .error ⟨"No audio file specified and no recent file available",
      .fileNotFound, none⟩
  | some fp =>
    if fp = "" then
      .error ⟨"No audio file specified and no recent file available",
        .fileNotFound, none⟩
    else
      let s1 := (playerStop s).2
      .ok (("Started playing audio file", "playing", fp),
        { s1 with currentProcess := some pid, currentFile := some fp, isPaused := false })

/-- The state part of `playerPlay` (unchanged when the call throws). -/
def playerPlayState (audioPath : Option String) (pid : Nat) (s : PlayerState) :
    PlayerState :=
  match playerPlay audioPath pid s with
  | .ok (_, s') => s'
  | .error _ => s

/-- The `close` handler registered on the playback subprocess: clears the
tracked process, current file and paused flag. -/
def playerOnClose (s : PlayerState) : PlayerState :=
  { s with currentProcess := none, currentFile := none, isPaused := false }

/-- `AudioPlayer.getStatus`. -/
def playerGetStatus (s : PlayerState) : String × Option String × Bool :=
  ((if s.currentProcess.isSome then (if s.isPaused then "paused" else "playing")
      else "stopped"),
    s.currentFile, s.isPaused)

/-- One observable operation on the player singleton. -/
inductive PlayerStep : PlayerState → PlayerState → Prop
  | play (audioPath : Option String) (pid : Nat) (s : PlayerState) :
      PlayerStep s (playerPlayState audioPath pid s)
  | pause (s : PlayerState) : PlayerStep s (playerPause s).2
  | resume (s : PlayerState) : PlayerStep s (playerResume s).2
  | stop (s : PlayerState) : PlayerStep s (playerStop s).2
  | onClose (s : PlayerState) : PlayerStep s (playerOnClose s)
  | setMostRecent (p : String) (s : PlayerState) :
      PlayerStep s (playerSetMostRecent p s)

/-- States of the player reachable from construction through the public
operations and the subprocess close callback. -/
inductive PlayerReachable : PlayerState → Prop
  | init : PlayerReachable initialPlayer
  | step {s s' : PlayerState} : PlayerReachable s → PlayerStep s s' →
      PlayerReachable s'

/-- The singleton consistency invariant: no tracked subprocess means no
current file and no paused flag. -/
def playerInv (s : PlayerState) : Prop :=
  s.currentProcess = none → s.currentFile = none ∧ s.isPaused = false

theorem dropWhile_replicate_of_pos {p : Char → Bool} {a : Char} (h : p a = true)
    (n : Nat) : (List.replicate n a).dropWhile p = [] := by
  induction n with
  | zero => simp
  | succ n ih => simp [List.replicate_succ, List.dropWhile, h, ih]

theorem dropWhile_replicate_of_neg {p : Char → Bool} {a : Char} (h : p a = false)
    (n : Nat) : (List.replicate n a).dropWhile p = List.replicate n a := by
  cases n with
  | zero => simp
  | succ n => simp [List.replicate_succ, List.dropWhile, h]

theorem jsTrim_replicate_space (n : Nat) : jsTrim ⟨List.replicate n ' '⟩ = "" := by
  have h : (' ').isWhitespace = true := by decide
  simp [jsTrim, dropWhile_replicate_of_pos h]

theorem jsTrim_replicate_a (n : Nat) :
    jsTrim ⟨List.replicate n 'a'⟩ = ⟨List.replicate n 'a'⟩ := by
  have h : ('a').isWhitespace = false := by decide
  simp [jsTrim, dropWhile_replicate_of_neg h, List.reverse_replicate]

theorem strLength_mk (l : List Char) : (⟨l⟩ : String).length = l.length := rfl

theorem charsLeadSeg_iff (pre l : List Char) :
    charsLeadSeg pre l = true ↔ ∃ rest, l = pre ++ rest := by
  induction pre generalizing l with
  | nil => simp [charsLeadSeg]
  | cons a as ih =>
    cases l with
    | nil =>
      simp [charsLeadSeg]
    | cons b bs =>
      simp only [charsLeadSeg, Bool.and_eq_true, beq_iff_eq, ih, List.cons_append,
        List.cons.injEq]
      constructor
      · rintro ⟨rfl, rest, rfl⟩
        exact ⟨rest, rfl, rfl⟩
      · rintro ⟨rest, rfl, rfl⟩
        exact ⟨rfl, rest, rfl⟩

theorem charsContains_iff (nd hay : List Char) :
    charsContains nd hay = true ↔ ∃ pre post, hay = pre ++ nd ++ post := by
  induction hay with
  | nil =>
    simp only [charsContains, List.isEmpty_iff]
    constructor
    · rintro rfl
      exact ⟨[], [], rfl⟩
    · rintro ⟨pre, post, h⟩
      rcases List.append_eq_nil.mp (List.append_eq_nil.mp h.symm).1 with ⟨_, h2⟩
      exact h2
  | cons c tl ih =>
    simp only [charsContains, Bool.or_eq_true, charsLeadSeg_iff, ih]
    constructor
    · rintro (⟨rest, h⟩ | ⟨pre, post, h⟩)
      · exact ⟨[], rest, by simp [h]⟩
      · exact ⟨c :: pre, post, by simp [h]⟩
    · rintro ⟨pre, post, h⟩
      cases pre with
      | nil =>
        exact Or.inl ⟨post, by simpa using h⟩
      | cons p ps =>
        simp only [List.cons_append, List.cons.injEq] at h
        exact Or.inr ⟨ps, post, h.2⟩

theorem jsIncludes_iff (s sub : String) :
    jsIncludes s sub = true ↔ ∃ pre post, s.data = pre ++ sub.data ++ post :=
  charsContains_iff sub.data s.data

theorem not_mem_fsUnlink (fs : FSState) (p : String) : p ∉ fsUnlink fs p := by
  simp [fsUnlink, List.mem_filter]

theorem not_mem_fsUnlink_of {a p : String} {fs : FSState} (h : a ∉ fs) :
    a ∉ fsUnlink fs p :=
  fun hm => h (List.mem_filter.mp hm).1

theorem mem_fsUnlink_of {a p : String} {fs : FSState} (h : a ∈ fs) (hne : a ≠ p) :
    a ∈ fsUnlink fs p := by
  simp [fsUnlink, List.mem_filter, h, hne]

theorem mem_fsWrite_self (fs : FSState) (p : String) : p ∈ fsWrite fs p := by
  by_cases h : p ∈ fs <;> simp [fsWrite, h]

theorem mem_fsWrite_of {a : String} {fs : FSState} (p : String) (h : a ∈ fs) :
    a ∈ fsWrite fs p := by
  by_cases hp : p ∈ fs <;> simp [fsWrite, hp, h]

theorem not_mem_fsWrite {a p : String} {fs : FSState} (h : a ∉ fs) (hne : a ≠ p) :
    a ∉ fsWrite fs p := by
  by_cases hp : p ∈ fs <;> simp [fsWrite, hp, h, hne]

theorem macosCatch_snd (p : String) (e : JSError) (fs : FSState) :
    (macosCatch p e fs).2 = fsUnlink fs p := by
  cases e <;> rfl

theorem macosCatch_not_ok (p : String) (e : JSError) (fs : FSState)
    (r : AudioResult) : (macosCatch p e fs).1 ≠ .ok r := by
  cases e <;> simp [macosCatch]

theorem kokoroCatch_snd (p : String) (e : JSError) (fs : FSState) :
    (kokoroCatch p e fs).2 = fsUnlink fs p := by
  cases e <;> rfl

theorem kokoroCatch_not_ok (p : String) (e : JSError) (fs : FSState)
    (r : AudioResult) : (kokoroCatch p e fs).1 ≠ .ok r := by
  cases e <;> simp [kokoroCatch]

/-- The `Alex` voice as listed by `say -v "?"` on a stock system. -/
def alexVoice : Voice :=
  ⟨"macos-alex", "Alex", "en-us", "male", "Most people recognize me by my voice.",
    "macos", "balanced"⟩

/-- The default Kokoro voice (`kokoro-af_sarah`). -/
def afSarahVoice : Voice :=
  ⟨"kokoro-af_sarah", "AF_SARAH", "en-us", "female", "Sarah - clear American female",
    "kokoro", "high"⟩

/-- A macOS engine instance that has completed initialization. -/
def demoMacState : MacState :=
  ⟨"/out", "/tmp", [alexVoice], true⟩

/-- A healthy macOS initialization environment. -/
def demoMacInitEnv : MacInitEnv :=
  ⟨true, true, some [alexVoice]⟩

/-- A macOS synthesis environment whose subprocess succeeds. -/
def demoMacSynthEnv : MacSynthEnv :=
  ⟨"2026-10-11T00-00-00", true, .closed 0, "", true, 120000, 450⟩

/-- A macOS synthesis environment whose `say` subprocess exits with code 1
after writing a partial file. -/
def macFailEnv : MacSynthEnv :=
  ⟨"2026-10-11T00-00-00", true, .closed 1, "say: boom", true, 0, 450⟩

/-- A Kokoro engine instance that has completed initialization. -/
def demoKokoroState : KokoroState :=
  ⟨"/out", "/tmp", kokoroVoiceCatalog, true, some "/opt/miniconda3/bin/python3"⟩

/-- A healthy Kokoro initialization environment. -/
def demoKokoroInitEnv : KokoroInitEnv :=
  ⟨some "/opt/miniconda3/bin/python3", true⟩

/-- A Kokoro synthesis environment whose subprocess prints the success
marker and exits 0. -/
def demoKokoroSynthEnv : KokoroSynthEnv :=
  ⟨"2026-10-11T00-00-00", 1760140800000, true, .closed 0, "SUCCESS\n", "", true, 96000, 800⟩

/-- A Kokoro synthesis environment whose subprocess exits with code 1 and
writes nothing. -/
def kokoroFailEnv : KokoroSynthEnv :=
  ⟨"2026-10-11T00-00-00", 1760140800000, true, .closed 1, "", "boom", false, 0, 800⟩

/-- A short valid request with no explicit voice. -/
def demoReq : SynthesisRequest :=
  ⟨"Hello world", none, none, none, none, none⟩

/-- A whitespace-only text of 50,001 characters. -/
def wsLongText : String :=
  ⟨List.replicate 50001 ' '⟩

/-- A non-blank text of 50,001 characters. -/
def aLongText : String :=
  ⟨List.replicate 50001 'a'⟩

/-- The over-long whitespace-only request. -/
def wsLongReq : SynthesisRequest :=
  ⟨wsLongText, none, none, none, none, none⟩

/-- The over-long non-blank request. -/
def aLongReq : SynthesisRequest :=
  ⟨aLongText, none, none, none, none, none⟩

/-- C4: within the validated speed domain (0.1–3.0 and above), the
native-command engine's speed-to-rate mapping equals
`clamp(round(speed*200), 80, 400)`; the mapping is monotone non-decreasing
there; its output always lies in [80, 400] for every input; and
speed 0.1, 1.0 and 3.0 map to rates 80, 200 and 400. -/
theorem C4_theorem :
    (∀ s : ℚ, 1 / 10 ≤ s → calculateRate (some s) = rateSpec s) ∧
    (∀ s t : ℚ, 1 / 10 ≤ s → s ≤ t →
      calculateRate (some s) ≤ calculateRate (some t)) ∧
    (∀ o : Option ℚ, 80 ≤ calculateRate o ∧ calculateRate o ≤ 400) ∧
    calculateRate (some (1 / 10)) = 80 ∧
    calculateRate (some 1) = 200 ∧
    calculateRate (some 3) = 400 := by
  refine ⟨calculateRate_eq_spec, fun s t hs hst => calculateRate_mono hs hst,
    calculateRate_bounds, ?_, ?_, ?_⟩
  · norm_num [calculateRate, jsRound]
  · norm_num [calculateRate, jsRound]
  · norm_num [calculateRate, jsRound]

/-- Witness for C4 at the concrete speed 1/2. -/
theorem C4_witness :
    (1 / 10 : ℚ) ≤ 1 / 2 ∧ calculateRate (some (1 / 2)) = rateSpec (1 / 2) :=
  ⟨by norm_num, C4_theorem.1 (1 / 2) (by norm_num)⟩

/-- C3: engine selection — an explicit engine name is an exact registry
lookup that yields the registered engine or the `EngineNotAvailable`
error; `auto` prefers the `kokoro` entry, falls back to `macos`, and
errors when neither is registered. -/
theorem C3_theorem (α : Type) (reg : List (String × α)) :
    (∀ e, mapGet reg "macos" = some e →
      handlerSelectEngine EnginePref.macos reg = .ok e) ∧
    (mapGet reg "macos" = none →
      handlerSelectEngine EnginePref.macos reg =
        .error ⟨"No available TTS engines", .engineNotAvailable, none⟩) ∧
    (∀ e, mapGet reg "kokoro" = some e →
      handlerSelectEngine EnginePref.kokoro reg = .ok e) ∧
    (mapGet reg "kokoro" = none →
      handlerSelectEngine EnginePref.kokoro reg =
        .error ⟨"No available TTS engines", .engineNotAvailable, none⟩) ∧
    (∀ e, mapGet reg "kokoro" = some e →
      handlerSelectEngine EnginePref.auto reg = .ok e) ∧
    (∀ e, mapGet reg "kokoro" = none → mapGet reg "macos" = some e →
      handlerSelectEngine EnginePref.auto reg = .ok e) ∧
    (mapGet reg "kokoro" = none → mapGet reg "macos" = none →
      handlerSelectEngine EnginePref.auto reg =
        .error ⟨"No available TTS engines", .engineNotAvailable, none⟩) := by
  refine ⟨?_, ?_, ?_, ?_, ?_, ?_, ?_⟩
  · intro e h; simp [handlerSelectEngine, selectEngine, h]
  · intro h; simp [handlerSelectEngine, selectEngine, h]
  · intro e h; simp [handlerSelectEngine, selectEngine, h]
  · intro h; simp [handlerSelectEngine, selectEngine, h]
  · intro e h; simp [handlerSelectEngine, selectEngine, h]
  · intro e hk hm; simp [handlerSelectEngine, selectEngine, hk, hm]
  · intro hk hm; simp [handlerSelectEngine, selectEngine, hk, hm]

/-- A registry holding both engines (values stand for the engine
objects). -/
def demoRegistry : List (String × String) :=
  [("kokoro", "kokoroEngineObject"), ("macos", "macosEngineObject")]

/-- Witness for C3: on a registry with both engines, `auto` picks the
kokoro entry. -/
theorem C3_witness :
    mapGet demoRegistry "kokoro" = some "kokoroEngineObject" ∧
    handlerSelectEngine EnginePref.auto demoRegistry = .ok "kokoroEngineObject" :=
  ⟨rfl, (C3_theorem String demoRegistry).2.2.2.2.1 "kokoroEngineObject" rfl⟩

/-- C5: a Kokoro synthesis subprocess run is treated as successful exactly
when it exits with code 0 and its stdout contains the `SUCCESS` marker;
exit code 0 without the marker is rejected as a synthesis failure. -/
theorem C5_theorem (py : String) (c : Int) (stdout stderr : String) :
    (executeKokoro (some py) (.closed c) stdout stderr = .ok () ↔
      (c = 0 ∧ ∃ pre post, stdout.data = pre ++ "SUCCESS".data ++ post)) ∧
    (c = 0 → jsIncludes stdout "SUCCESS" = false →
      executeKokoro (some py) (.closed c) stdout stderr =
        .error (.tts ⟨kokoroExitFailMsg c stdout stderr, .synthesisFailed,
          some "kokoro"⟩)) := by
  constructor
  · rw [← jsIncludes_iff]
    constructor
    · intro h
      by_cases hc : c = 0 ∧ jsIncludes stdout "SUCCESS" = true
      · exact hc
      · simp [executeKokoro, hc] at h
    · intro h
      simp [executeKokoro, h]
  · intro hc hinc
    have : ¬(c = 0 ∧ jsIncludes stdout "SUCCESS" = true) := by
      rintro ⟨_, h⟩
      rw [hinc] at h
      exact Bool.false_ne_true h
    simp [executeKokoro, this]

/-- Witness for C5: exit code 0 with the marker present is accepted. -/
theorem C5_witness :
    executeKokoro (some "/opt/miniconda3/bin/python3") (.closed 0)
      "done\nSUCCESS\n" "" = .ok () :=
  ( C5_theorem "/opt/miniconda3/bin/python3" 0 "done\nSUCCESS\n" "").1.mpr
    ⟨rfl, "done\n".data, "\n".data, by decide⟩

/-- An uninitialized macOS engine instance. -/
def macFreshState : MacState :=
  ⟨"/out", "/tmp", [], false⟩

/-- An initialization environment on a non-macOS platform. -/
def nonDarwinEnv : MacInitEnv :=
  ⟨false, false, none⟩

/-- An uninitialized Kokoro engine instance. -/
def kokoroFreshState : KokoroState :=
  ⟨"/out", "/tmp", [], false, none⟩

/-- A Kokoro initialization environment in which no Python interpreter is
found. -/
def kokoroFailInitEnv : KokoroInitEnv :=
  ⟨none, false⟩

/-- Counterexample to C8 as stated: `MacOSEngine.initialize` does
propagate an exception — on a non-macOS platform it throws an
`EngineNotAvailable` error instead of returning with the engine marked
unavailable. -/
theorem C8_counterexample :
    macosInit macFreshState nonDarwinEnv =
      .error (.tts ⟨"macOS Say engine is only available on macOS",
        .engineNotAvailable, some "macos"⟩) := by
  rfl

/-- C8 (amended): `KokoroEngine.initialize` never propagates an error —
when its try block fails the engine is left uninitialized (unavailable) —
whereas `MacOSEngine.initialize` throws `EngineNotAvailable` when the
platform probe fails. -/
theorem C8_theorem :
    (∀ (st : KokoroState) (env : KokoroInitEnv), (kokoroInit st env).2 = none) ∧
    (∀ (st : KokoroState) (env : KokoroInitEnv), st.initialized = false →
      (kokoroInitTry st env).2 ≠ none →
      (kokoroInit st env).1.initialized = false) ∧
    (∀ (st : KokoroState) (env : KokoroInitEnv), st.initialized = false →
      (kokoroInitTry st env).2 = none →
      (kokoroInit st env).1.initialized = true) ∧
    (∀ (st : MacState) (env : MacInitEnv), st.initialized = false →
      env.platformDarwin = false →
      macosInit st env = .error (.tts ⟨"macOS Say engine is only available on macOS",
        .engineNotAvailable, some "macos"⟩)) := by
  refine ⟨?_, ?_, ?_, ?_⟩
  · intro st env
    by_cases h : st.initialized <;> simp [kokoroInit, h]
  · intro st env h0 hfail
    match henv : env.pythonFound with
    | none => simp [kokoroInit, kokoroInitTry, h0, henv]
    | some py =>
      by_cases hv : env.verifyOk
      · exfalso
        apply hfail
        simp [kokoroInitTry, henv, hv]
      · simp [kokoroInit, kokoroInitTry, h0, henv, hv]
  · intro st env h0 hok
    match henv : env.pythonFound with
    | none => simp [kokoroInitTry, henv] at hok
    | some py =>
      by_cases hv : env.verifyOk
      · simp [kokoroInit, kokoroInitTry, h0, henv, hv]
      · simp [kokoroInitTry, henv, hv] at hok
  · intro st env h0 hp
    simp [macosInit, h0, hp]

/-- Witness for C8: a failed Kokoro initialization swallows the error and
leaves the engine uninitialized. -/
theorem C8_witness :
    kokoroFreshState.initialized = false ∧
    (kokoroInitTry kokoroFreshState kokoroFailInitEnv).2 ≠ none ∧
    (kokoroInit kokoroFreshState kokoroFailInitEnv).1.initialized = false :=
  ⟨rfl, by decide,
    C8_theorem.2.1 kokoroFreshState kokoroFailInitEnv rfl (by decide)⟩

/-- C10: calling pause while playback is already paused leaves the state
untouched but reports status `stopped`, even though `getStatus` reports
`paused` for that same state. -/
theorem C10_theorem (s : PlayerState) (hp : s.currentProcess ≠ none)
    (hpause : s.isPaused = true) :
    playerPause s = (("No active playback to pause", "stopped"), s) ∧
    (playerGetStatus s).1 = "paused" := by
  constructor
  · simp [playerPause, hpause]
  · have : s.currentProcess.isSome = true := Option.isSome_iff_ne_none.mpr hp
    simp [playerGetStatus, this, hpause]

/-- A player state with a tracked, paused subprocess. -/
def pausedPlayer : PlayerState :=
  ⟨some 7, true, some "/out/file.aiff", some "/out/file.aiff"⟩

/-- Witness for C10 at a concrete paused state. -/
theorem C10_witness :
    pausedPlayer.currentProcess ≠ none ∧ pausedPlayer.isPaused = true ∧
    playerPause pausedPlayer = (("No active playback to pause", "stopped"), pausedPlayer) ∧
    (playerGetStatus pausedPlayer).1 = "paused" :=
  ⟨by decide, rfl, (C10_theorem pausedPlayer (by decide) rfl).1,
    (C10_theorem pausedPlayer (by decide) rfl).2⟩

/-- Whether some catalog voice matches a request under the exact
(name/id, case-insensitive) rule alone. -/
def kokoroHasExactMatch (r : String) : Bool :=
  kokoroVoiceCatalog.any (macosVoiceMatch r)

/-- Counterexample to C2 as stated: the request `sarah` has no exact
case-insensitive name/id match in the Kokoro catalog, yet
`KokoroEngine.resolveVoice` succeeds (by substring match on `AF_SARAH`)
instead of failing with `VoiceNotFound`. -/
theorem C2_counterexample :
    kokoroHasExactMatch "sarah" = false ∧
    kokoroResolveVoice kokoroVoiceCatalog (some "sarah") = .ok (some afSarahVoice) := by
  constructor
  · decide
  · rfl

/-- C2 (amended): macOS resolves an explicit voice by exact
case-insensitive name/id match and fails with `VoiceNotFound` exactly when
no voice matches; Kokoro matches additionally when the request is a
case-insensitive substring of a voice name, failing with `VoiceNotFound`
only when no exact-or-substring match exists; an omitted voice resolves to
the engine default — `Alex` or the first listed voice for macOS (whenever
any voices are loaded), `AF_SARAH` for Kokoro. -/
theorem C2_theorem :
    (∀ (voices : List Voice) (r : String) (v : Voice), r ≠ "" →
      macosResolveVoice voices (some r) = .ok (some v) →
      macosVoiceMatch r v = true) ∧
    (∀ (voices : List Voice) (r : String), r ≠ "" →
      (∀ v ∈ voices, macosVoiceMatch r v = false) →
      macosResolveVoice voices (some r) =
        .error ⟨"Voice \"" ++ r ++ "\" not found", .voiceNotFound, some "macos"⟩) ∧
    (∀ (voices : List Voice) (r : String) (v : Voice), r ≠ "" →
      kokoroResolveVoice voices (some r) = .ok (some v) →
      kokoroVoiceMatch r v = true) ∧
    (∀ (voices : List Voice) (r : String), r ≠ "" →
      (∀ v ∈ voices, kokoroVoiceMatch r v = false) →
      kokoroResolveVoice voices (some r) =
        .error ⟨"Voice \"" ++ r ++ "\" not found in Kokoro engine",
          .voiceNotFound, some "kokoro"⟩) ∧
    (∀ voices : List Voice, voices ≠ [] →
      ∃ v, macosResolveVoice voices none = .ok (some v)) ∧
    kokoroResolveVoice kokoroVoiceCatalog none = .ok (some afSarahVoice) := by
  refine ⟨?_, ?_, ?_, ?_, ?_, rfl⟩
  · intro voices r v hr h
    simp only [macosResolveVoice, if_neg hr] at h
    split at h
    next w hfind =>
      simp only [Except.ok.injEq, Option.some.injEq] at h
      subst h
      exact List.find?_some hfind
    next hfind => simp at h
  · intro voices r hr hall
    have hfind : voices.find? (macosVoiceMatch r) = none :=
      List.find?_eq_none.mpr (fun v hv => by simp [hall v hv])
    simp only [macosResolveVoice, if_neg hr, hfind]
  · intro voices r v hr h
    simp only [kokoroResolveVoice, if_neg hr] at h
    split at h
    next w hfind =>
      simp only [Except.ok.injEq, Option.some.injEq] at h
      subst h
      exact List.find?_some hfind
    next hfind => simp at h
  · intro voices r hr hall
    have hfind : voices.find? (kokoroVoiceMatch r) = none :=
      List.find?_eq_none.mpr (fun v hv => by simp [hall v hv])
    simp only [kokoroResolveVoice, if_neg hr, hfind]
  · intro voices hne
    cases voices with
    | nil => exact absurd rfl hne
    | cons a l =>
      simp only [macosResolveVoice]
      cases hf : (a :: l).find? (fun v => v.name == "Alex") with
      | some w => exact ⟨w, rfl⟩
      | none => exact ⟨a, rfl⟩

/-- Witness for C2 at a concrete exact match on the macOS side. -/
theorem C2_witness :
    ("alex" : String) ≠ "" ∧ macosVoiceMatch "alex" alexVoice = true :=
  ⟨by decide, C2_theorem.1 [alexVoice] "alex" alexVoice (by decide) rfl⟩

/-- Counterexample to C1 as stated: a request of 50,001 whitespace
characters exceeds the 50,000-character limit, yet synthesis fails with
`InvalidParameters` (the empty-text check runs first), not `TextTooLong`. -/
theorem C1_counterexample :
    50000 < wsLongText.length ∧
    (macosSynthesize demoMacState demoMacInitEnv demoMacSynthEnv wsLongReq []).1 =
      .error (.tts ⟨"Text cannot be empty", .invalidParameters, some "macos"⟩) ∧
    ErrorCode.invalidParameters ≠ ErrorCode.textTooLong := by
  refine ⟨?_, ?_, by decide⟩
  · have h : wsLongText.length = 50001 := by
      show (⟨List.replicate 50001 ' '⟩ : String).length = 50001
      rw [strLength_mk, List.length_replicate]
    omega
  · have htrim : jsTrim wsLongReq.text = "" := jsTrim_replicate_space 50001
    simp [macosSynthesize, macosInit, demoMacState, demoMacInitEnv, htrim]

/-- C1 (amended): for every request longer than 50,000 characters, both
engines fail with `TextTooLong` provided the text is not whitespace-only
(an initialized engine on the macOS side); a whitespace-only over-long
text instead fails with `InvalidParameters`; in every case no audio
result is produced by either engine. -/
theorem C1_theorem (mst : MacState) (kst : KokoroState) (mienv : MacInitEnv)
    (kienv : KokoroInitEnv) (menv : MacSynthEnv) (kenv : KokoroSynthEnv)
    (req : SynthesisRequest) (mfs kfs : FSState)
    (hlen : 50000 < req.text.length) :
    (mst.initialized = true → jsTrim req.text ≠ "" →
      (macosSynthesize mst mienv menv req mfs).1 =
        .error (.tts ⟨"Text too long for macOS Say (max 50,000 characters)",
          .textTooLong, some "macos"⟩)) ∧
    (jsTrim req.text ≠ "" →
      (kokoroSynthesize kst kienv kenv req kfs).1 =
        .error (.tts ⟨"Text too long for Kokoro TTS (max 50,000 characters)",
          .textTooLong, some "kokoro"⟩)) ∧
    (∀ r, (macosSynthesize mst mienv menv req mfs).1 ≠ .ok r) ∧
    (∀ r, (kokoroSynthesize kst kienv kenv req kfs).1 ≠ .ok r) := by
  refine ⟨?_, ?_, ?_, ?_⟩
  · intro hinit htrim
    simp [macosSynthesize, macosInit, hinit, htrim, hlen]
  · intro htrim
    simp [kokoroSynthesize, htrim, hlen]
  · intro r
    cases hmi : macosInit mst mienv with
    | error e => simp [macosSynthesize, hmi]
    | ok st =>
      by_cases ht : jsTrim req.text = "" <;>
        simp [macosSynthesize, hmi, ht, hlen]
  · intro r
    by_cases ht : jsTrim req.text = "" <;>
      simp [kokoroSynthesize, ht, hlen]

/-- Witness for C1 at a concrete 50,001-character non-blank text. -/
theorem C1_witness :
    50000 < aLongReq.text.length ∧ jsTrim aLongReq.text ≠ "" ∧
    (macosSynthesize demoMacState demoMacInitEnv demoMacSynthEnv aLongReq []).1 =
      .error (.tts ⟨"Text too long for macOS Say (max 50,000 characters)",
        .textTooLong, some "macos"⟩) ∧
    (kokoroSynthesize demoKokoroState demoKokoroInitEnv demoKokoroSynthEnv aLongReq []).1 =
      .error (.tts ⟨"Text too long for Kokoro TTS (max 50,000 characters)",
        .textTooLong, some "kokoro"⟩) := by
  have hlen : 50000 < aLongReq.text.length := by
    have h : aLongReq.text.length = 50001 := by
      show (⟨List.replicate 50001 'a'⟩ : String).length = 50001
      rw [strLength_mk, List.length_replicate]
    omega
  have htrim : jsTrim aLongReq.text ≠ "" := by
    have h1 : jsTrim aLongReq.text = aLongReq.text := jsTrim_replicate_a 50001
    rw [h1]
    intro h
    have h2 := congrArg String.length h
    rw [show aLongReq.text = (⟨List.replicate 50001 'a'⟩ : String) from rfl,
      strLength_mk, List.length_replicate] at h2
    simp at h2
  exact ⟨hlen, htrim,
    (C1_theorem demoMacState demoKokoroState demoMacInitEnv demoKokoroInitEnv
      demoMacSynthEnv demoKokoroSynthEnv aLongReq [] [] hlen).1 rfl htrim,
    (C1_theorem demoMacState demoKokoroState demoMacInitEnv demoKokoroInitEnv
      demoMacSynthEnv demoKokoroSynthEnv aLongReq [] [] hlen).2.1 htrim⟩

theorem playerStep_preserves {s s' : PlayerState} (h : playerInv s)
    (hs : PlayerStep s s') : playerInv s' := by
  cases hs with
  | play a pid s =>
    cases hj : jsOrFile a s.mostRecentFile with
    | none =>
      simpa [playerPlayState, playerPlay, hj] using h
    | some fp =>
      by_cases hfp : fp = ""
      · simpa [playerPlayState, playerPlay, hj, hfp] using h
      · intro hc
        simp [playerPlayState, playerPlay, hj, hfp] at hc
  | pause s =>
    by_cases hc : s.currentProcess = none ∨ s.isPaused = true
    · simpa [playerPause, hc] using h
    · intro h0
      have hnone : s.currentProcess = none := by
        simpa [playerPause, hc] using h0
      exact absurd hnone (not_or.mp hc).1
  | resume s =>
    by_cases hc : s.currentProcess = none ∨ s.isPaused = false
    · simpa [playerResume, hc] using h
    · intro h0
      have hnone : s.currentProcess = none := by
        simpa [playerResume, hc] using h0
      exact absurd hnone (not_or.mp hc).1
  | stop s =>
    cases hp : s.currentProcess with
    | some pid =>
      intro h0
      simp [playerStop, hp]
    | none =>
      simpa [playerStop, hp] using h
  | onClose s =>
    intro h0
    simp [playerOnClose]
  | setMostRecent p s =>
    intro h0
    simp only [playerSetMostRecent] at h0 ⊢
    exact h h0

theorem playerReachable_inv (s : PlayerState) (h : PlayerReachable s) :
    playerInv s := by
  induction h with
  | init => exact fun _ => ⟨rfl, rfl⟩
  | step _ hs ih => exact playerStep_preserves ih hs

/-- C9: in every reachable state of the audio player, an untracked
subprocess implies no current file and a cleared paused flag, and every
operation (play, pause, resume, stop, the close callback, and
`setMostRecentFile`) preserves this invariant. -/
theorem C9_theorem :
    (∀ s, PlayerReachable s → playerInv s) ∧
    (∀ s s', playerInv s → PlayerStep s s' → playerInv s') :=
  ⟨playerReachable_inv, fun _ _ h hs => playerStep_preserves h hs⟩

/-- Witness for C9 at the initial state. -/
theorem C9_witness :
    initialPlayer.currentFile = none ∧ initialPlayer.isPaused = false :=
  C9_theorem.1 initialPlayer PlayerReachable.init rfl

/-- C6: whenever a synthesis call fails after the output path is
determined (the validation and voice-resolution steps succeeded), the
failed call's final filesystem does not contain the output path — the
catch block deletes any partially-written output file before
propagating. -/
theorem C6_theorem :
    (∀ (st : MacState) (ienv : MacInitEnv) (env : MacSynthEnv)
      (req : SynthesisRequest) (fs0 : FSState) (v : Voice),
      st.initialized = true → jsTrim req.text ≠ "" → req.text.length ≤ 50000 →
      macosResolveVoice st.voices req.voice = .ok (some v) →
      ∀ e, (macosSynthesize st ienv env req fs0).1 = .error e →
        macosOutputPath st env req v ∉ (macosSynthesize st ienv env req fs0).2) ∧
    (∀ (st : KokoroState) (ienv : KokoroInitEnv) (env : KokoroSynthEnv)
      (req : SynthesisRequest) (fs0 : FSState) (v : Voice),
      st.initialized = true → jsTrim req.text ≠ "" → req.text.length ≤ 50000 →
      kokoroResolveVoice st.voices req.voice = .ok (some v) →
      ∀ e, (kokoroSynthesize st ienv env req fs0).1 = .error e →
        kokoroOutputPath st env req v ∉ (kokoroSynthesize st ienv env req fs0).2) := by
  constructor
  · intro st ienv env req fs0 v hinit htrim hlen hres e herr
    have hnlt : ¬50000 < req.text.length := not_lt.mpr hlen
    by_cases hmk : env.mkdirOk = false
    · simp [macosSynthesize, macosInit, hinit, htrim, hnlt, hres, hmk,
        macosCatch_snd, not_mem_fsUnlink]
    · cases hsay : executeSay env.sayRun env.sayStderr with
      | error e2 =>
        simp [macosSynthesize, macosInit, hinit, htrim, hnlt, hres, hmk, hsay,
          macosCatch_snd, not_mem_fsUnlink]
      | ok u =>
        by_cases hmem : macosOutputPath st env req v ∈
            (if env.fileWritten then fsWrite fs0 (macosOutputPath st env req v) else fs0)
        · simp [macosSynthesize, macosInit, hinit, htrim, hnlt, hres, hmk, hsay,
            hmem] at herr
        · simp [macosSynthesize, macosInit, hinit, htrim, hnlt, hres, hmk, hsay,
            hmem, macosCatch_snd, not_mem_fsUnlink]
  · intro st ienv env req fs0 v hinit htrim hlen hres e herr
    have hnlt : ¬50000 < req.text.length := not_lt.mpr hlen
    by_cases hmk : env.mkdirOk = false
    · simp [kokoroSynthesize, kokoroInit, hinit, htrim, hnlt, hres, hmk,
        kokoroCatch_snd, not_mem_fsUnlink]
    · cases hexec : executeKokoro st.pythonExecutable env.run env.runStdout env.runStderr with
      | error e2 =>
        simp [kokoroSynthesize, kokoroInit, hinit, htrim, hnlt, hres, hmk, hexec,
          kokoroCatch_snd, not_mem_fsUnlink]
      | ok u =>
        simp [kokoroSynthesize, kokoroInit, hinit, htrim, hnlt, hres, hmk, hexec]
          at herr ⊢
        by_cases hb : st.pythonExecutable.isSome = true ∧ env.fileWritten = true
        · by_cases hmem : kokoroOutputPath st env req v ∈
              fsUnlink (fsWrite (fsWrite fs0 (kokoroScriptPath st env))
                (kokoroOutputPath st env req v)) (kokoroScriptPath st env)
          · simp [hb, hmem] at herr
          · simp [hb, hmem, kokoroCatch_snd, not_mem_fsUnlink]
        · by_cases hmem : kokoroOutputPath st env req v ∈
              fsUnlink (fsWrite fs0 (kokoroScriptPath st env)) (kokoroScriptPath st env)
          · simp [hb, hmem] at herr
          · simp [hb, hmem, kokoroCatch_snd, not_mem_fsUnlink]

/-- Witness for C6 at a concrete failing `say` run (exit code 1 after a
partial write). -/
theorem C6_witness :
    (macosSynthesize demoMacState demoMacInitEnv macFailEnv demoReq []).1 =
      .error (.tts ⟨"Synthesis failed", .synthesisFailed, some "macos"⟩) ∧
    macosOutputPath demoMacState macFailEnv demoReq alexVoice ∉
      (macosSynthesize demoMacState demoMacInitEnv macFailEnv demoReq []).2 :=
  ⟨rfl, C6_theorem.1 demoMacState demoMacInitEnv macFailEnv demoReq [] alexVoice
    rfl (by decide) (by decide) rfl _ rfl⟩

/-- Counterexample to C7 as stated: when the Kokoro subprocess exits with
code 1, the synthesis call fails and the generated temp script still
exists afterwards — the catch block deletes only the output file, never
the script. -/
theorem C7_counterexample :
    (kokoroSynthesize demoKokoroState demoKokoroInitEnv kokoroFailEnv demoReq []).1 =
      .error (.tts ⟨kokoroExitFailMsg 1 "" "boom", .synthesisFailed, some "kokoro"⟩) ∧
    kokoroScriptPath demoKokoroState kokoroFailEnv ∈
      (kokoroSynthesize demoKokoroState demoKokoroInitEnv kokoroFailEnv demoReq []).2 := by
  constructor
  · rfl
  · decide

/-- C7 (amended): the generated script is written to the temp path and the
call leaves no script behind whenever the subprocess execution step
succeeds (even if the subsequent stat fails); but when the subprocess
execution step fails — non-zero exit, missing `SUCCESS` marker, spawn
error, timeout, or missing interpreter — the synthesis fails and the temp
script remains on disk. -/
theorem C7_theorem (st : KokoroState) (ienv : KokoroInitEnv) (env : KokoroSynthEnv)
    (req : SynthesisRequest) (fs0 : FSState) (v : Voice)
    (hinit : st.initialized = true) (htrim : jsTrim req.text ≠ "")
    (hlen : req.text.length ≤ 50000)
    (hres : kokoroResolveVoice st.voices req.voice = .ok (some v))
    (hmk : env.mkdirOk = true)
    (hne : kokoroScriptPath st env ≠ kokoroOutputPath st env req v) :
    (executeKokoro st.pythonExecutable env.run env.runStdout env.runStderr = .ok () →
      kokoroScriptPath st env ∉ (kokoroSynthesize st ienv env req fs0).2) ∧
    (executeKokoro st.pythonExecutable env.run env.runStdout env.runStderr ≠ .ok () →
      kokoroScriptPath st env ∈ (kokoroSynthesize st ienv env req fs0).2 ∧
      ∀ r, (kokoroSynthesize st ienv env req fs0).1 ≠ .ok r) := by
  have hnlt : ¬50000 < req.text.length := not_lt.mpr hlen
  have hmkf : ¬env.mkdirOk = false := by simp [hmk]
  constructor
  · intro hexec
    simp [kokoroSynthesize, kokoroInit, hinit, htrim, hnlt, hres, hmkf, hexec]
    by_cases hb : st.pythonExecutable.isSome = true ∧ env.fileWritten = true
    · by_cases hmem : kokoroOutputPath st env req v ∈
          fsUnlink (fsWrite (fsWrite fs0 (kokoroScriptPath st env))
            (kokoroOutputPath st env req v)) (kokoroScriptPath st env)
      · simp [hb, hmem, not_mem_fsUnlink]
      · simp [hb, hmem, kokoroCatch_snd]
        exact not_mem_fsUnlink_of (not_mem_fsUnlink _ _)
    · by_cases hmem : kokoroOutputPath st env req v ∈
          fsUnlink (fsWrite fs0 (kokoroScriptPath st env)) (kokoroScriptPath st env)
      · simp [hb, hmem, not_mem_fsUnlink]
      · simp [hb, hmem, kokoroCatch_snd]
        exact not_mem_fsUnlink_of (not_mem_fsUnlink _ _)
  · intro hexec
    cases hex : executeKokoro st.pythonExecutable env.run env.runStdout env.runStderr with
    | ok u =>
      cases u
      exact absurd hex hexec
    | error e2 =>
      constructor
      · simp [kokoroSynthesize, kokoroInit, hinit, htrim, hnlt, hres, hmkf, hex,
          kokoroCatch_snd]
        have hfs1 : kokoroScriptPath st env ∈ fsWrite fs0 (kokoroScriptPath st env) :=
          mem_fsWrite_self _ _
        by_cases hb : st.pythonExecutable.isSome = true ∧ env.fileWritten = true
        · simp [hb]
          exact mem_fsUnlink_of (mem_fsWrite_of _ hfs1) hne
        · simp [hb]
          exact mem_fsUnlink_of hfs1 hne
      · intro r
        simp [kokoroSynthesize, kokoroInit, hinit, htrim, hnlt, hres, hmkf, hex]
        exact kokoroCatch_not_ok _ _ _ _

/-- Witness for C7 at a concrete successful subprocess run. -/
theorem C7_witness :
    executeKokoro demoKokoroState.pythonExecutable demoKokoroSynthEnv.run
      demoKokoroSynthEnv.runStdout demoKokoroSynthEnv.runStderr = .ok () ∧
    kokoroScriptPath demoKokoroState demoKokoroSynthEnv ∉
      (kokoroSynthesize demoKokoroState demoKokoroInitEnv demoKokoroSynthEnv demoReq []).2 :=
  ⟨rfl, (C7_theorem demoKokoroState demoKokoroInitEnv demoKokoroSynthEnv demoReq []
    afSarahVoice rfl (by decide) (by decide) rfl rfl (by decide)).1 rfl⟩
